import Mathlib

/-!
Shallow embedding of `pdf_service.py` (class `PDFReportGenerator`): the
path-resolution heuristic, the table/summary computation, the per-page
decoration routine, the synchronous `generate` entry point and the
asynchronous dispatch wrapper `generate_async`.

Modelling conventions:
* Python floats are idealised as exact rationals (`Rat`); the two-decimal
  f-string formatting `f"{x:.2f}"` is modelled by `fix2` (ties rounded
  half-up on the exact value).
* Subject coefficients are integers (`Int`), matching the callers and the
  spec's "integer-valued" display contract; `str(coeff)` is `intStr`.
* OS and rendering-engine calls are response oracles in an `Env`: each call
  either succeeds with a value or raises, the raised Python exception being
  represented by its `str(e)` message in `Except.error`.
* Side effects performed by a call (`os.makedirs`, submitting a document to
  the engine) are collected in an `Eff` trace.
* The worker thread spawned by `generate_async` is modelled by the list of
  events its body produces, in program order.
-/

set_option maxHeartbeats 1000000

namespace PdfService

/-- Decimal digits, most significant first, by structural recursion on a fuel
argument (the fuel never runs out when it starts at `n`, see `natDigits`). -/
def natDigitsAux : Nat → Nat → List Nat
  | 0, n => [n % 10]
  | fuel + 1, n => if n < 10 then [n] else natDigitsAux fuel (n / 10) ++ [n % 10]

/-- Decimal digits of a natural number, most significant first (`0 ↦ [0]`). -/
def natDigits (n : Nat) : List Nat :=
  natDigitsAux n n

/-- Decimal rendering of a natural number, as Python `str` on a nonnegative int. -/
def natStr (n : Nat) : String :=
  String.mk ((natDigits n).map Nat.digitChar)

/-- Decimal rendering of an integer, as Python `str` on an int. -/
def intStr (i : Int) : String :=
  String.mk ((if i < 0 then ['-'] else []) ++ (natDigits i.natAbs).map Nat.digitChar)

/-- Rendering of a number of hundredths as a fixed two-decimal string:
sign, integer digits, a dot, exactly two fractional digits. -/
def fix2Int (c : Int) : String :=
  String.mk ((if c < 0 then ['-'] else []) ++
    (natDigits (c.natAbs / 100)).map Nat.digitChar ++
    ['.', Nat.digitChar (c.natAbs / 10 % 10), Nat.digitChar (c.natAbs % 10)])

/-- Fixed two-decimal rendering of a rational, modelling Python `f"{x:.2f}"`
on the idealised exact value: round to a whole number of hundredths, then
print with exactly two fractional digits. -/
def fix2 (q : Rat) : String :=
  fix2Int (round (q * 100))

/-- Upper-casing as Python `str.upper` on ASCII text (`classification.upper()`). -/
def strUpper (s : String) : String :=
  String.mk (s.data.map Char.toUpper)

/-- One subject input record (`SubjectData` in the callers): display name,
average, weighting coefficient, and precomputed weighted score. -/
structure SubjectRecord where
  name : String
  average : Rat
  coeff : Int
  weighted_score : Rat
  deriving DecidableEq, Repr

/-- A table cell: a styled `Paragraph` flowable (markup text plus the name of
the paragraph style it was built with) or a plain string. -/
inductive Cell where
  | para (markup : String) (style : String)
  | str (s : String)
  deriving DecidableEq, Repr

/-- The header row of the table: `SUBJECT`, `AVG`, `COEFF`, `WEIGHTED`. -/
def headerRow : List Cell :=
  [Cell.para "SUBJECT" "HeaderL", Cell.para "AVG" "Header",
   Cell.para "COEFF" "Header", Cell.para "WEIGHTED" "Header"]

/-- The row built for one subject in the rendering loop: bold name paragraph,
two-decimal average, plain integer coefficient, two-decimal weighted score. -/
def subjectRow (sub : SubjectRecord) : List Cell :=
  [Cell.para ("<b>" ++ sub.name ++ "</b>") "Normal",
   Cell.str (fix2 sub.average),
   Cell.str (intStr sub.coeff),
   Cell.str (fix2 sub.weighted_score)]

/-- One iteration of the subject loop: append the subject's row and add its
coefficient and weighted score to the running totals. -/
def rowStep (acc : List (List Cell) × Int × Rat) (sub : SubjectRecord) :
    List (List Cell) × Int × Rat :=
  (acc.1 ++ [subjectRow sub], acc.2.1 + sub.coeff, acc.2.2 + sub.weighted_score)

/-- The subject loop, started from `data = [headers]`, `total_c = 0`,
`total_w = 0`, folded over the subjects in input order. -/
def buildRows (subjects : List SubjectRecord) : List (List Cell) × Int × Rat :=
  subjects.foldl rowStep ([headerRow], 0, 0)

/-- The totals row `["", "TOTALS", str(total_c), f"{total_w:.2f}"]`. -/
def totalsRow (tc : Int) (tw : Rat) : List Cell :=
  [Cell.str "", Cell.str "TOTALS", Cell.str (intStr tc), Cell.str (fix2 tw)]

/-- The full table data handed to the engine: header row, one row per subject
in input order, then the totals row appended last. -/
def tableData (subjects : List SubjectRecord) : List (List Cell) :=
  (buildRows subjects).1 ++ [totalsRow (buildRows subjects).2.1 (buildRows subjects).2.2]

/-- Primary brand colour. -/
def C_PRIMARY : String := "#2e004f"

/-- Secondary brand colour. -/
def C_SECONDARY : String := "#6c5ce7"

/-- A4 page width in points, exactly (`210mm ⋅ 72/25.4`). -/
def pageW : Rat := 75600 / 127

/-- A4 page height in points, exactly (`297mm ⋅ 72/25.4`). -/
def pageH : Rat := 106920 / 127

/-- One ReportLab canvas call issued by the page-decoration routine. -/
inductive CanvasOp where
  | saveState
  | restoreState
  | setFillColor (c : String)
  | setStrokeColor (c : String)
  | setFont (f : String) (size : Nat)
  | setLineWidth (w : Nat)
  | drawPathShape (pts : List (Rat × Rat)) (fill stroke : Bool)
  | line (x1 y1 x2 y2 : Rat)
  | circle (cx cy r : Rat) (fill stroke : Bool)
  | drawString (x y : Rat) (s : String)
  | drawRightString (x y : Rat) (s : String)
  | drawCentredString (x y : Rat) (s : String)
  deriving DecidableEq, Repr

/-- The page-decoration routine `draw_background`, as the sequence of canvas
calls it issues: slanted header banner, title and date, footer rule and
labels, the circular grade badge with `total_avg` over `/ 20`, and the
upper-cased classification beneath it. `today` is the formatted current
date. -/
def drawBackground (total_avg : Rat) (classification : String) (today : String) :
    List CanvasOp :=
  [CanvasOp.saveState,
   CanvasOp.setFillColor C_PRIMARY,
   CanvasOp.drawPathShape [(0, pageH), (pageW, pageH), (pageW, pageH - 140), (0, pageH - 100)]
     true false,
   CanvasOp.setFillColor "white",
   CanvasOp.setFont "Helvetica-Bold" 24,
   CanvasOp.drawRightString (pageW - 40) (pageH - 50) "ACADEMIC REPORT",
   CanvasOp.setFont "Helvetica" 10,
   CanvasOp.setFillColor "#dcdde1",
   CanvasOp.drawRightString (pageW - 40) (pageH - 65) today,
   CanvasOp.setStrokeColor C_SECONDARY,
   CanvasOp.setLineWidth 2,
   CanvasOp.line 50 50 (pageW - 50) 50,
   CanvasOp.setFont "Helvetica-Bold" 8,
   CanvasOp.setFillColor "gray",
   CanvasOp.drawString 50 35 "ACADEMIC ANALYTICS SUITE",
   CanvasOp.drawRightString (pageW - 50) 35 "Powered by Karim Dev",
   CanvasOp.setStrokeColor C_SECONDARY,
   CanvasOp.setLineWidth 3,
   CanvasOp.setFillColor "white",
   CanvasOp.circle (pageW / 2) (pageH - 160) 60 true true,
   CanvasOp.setFillColor C_PRIMARY,
   CanvasOp.circle (pageW / 2) (pageH - 160) 52 true false,
   CanvasOp.setFillColor "white",
   CanvasOp.setFont "Helvetica-Bold" 26,
   CanvasOp.drawCentredString (pageW / 2) (pageH - 160 + 6) (fix2 total_avg),
   CanvasOp.setFont "Helvetica" 10,
   CanvasOp.drawCentredString (pageW / 2) (pageH - 160 - 15) "/ 20",
   CanvasOp.setFillColor C_SECONDARY,
   CanvasOp.setFont "Helvetica-Bold" 14,
   CanvasOp.drawCentredString (pageW / 2) (pageH - 160 - 85)
     ("PERFORMANCE: " ++ strUpper classification),
   CanvasOp.restoreState]

/-- A piece of text as actually painted on a page: content, position, and the
fill colour, font, size and alignment in effect at the draw call. -/
structure TextDraw where
  text : String
  x : Rat
  y : Rat
  fill : String
  font : String
  size : Nat
  align : String
  deriving DecidableEq, Repr

/-- Interpreter for the text output of a canvas-call sequence, threading the
current fill colour and font through the state-setting calls. -/
def renderTextsAux (fill font : String) (size : Nat) : List CanvasOp → List TextDraw
  | [] => []
  | CanvasOp.setFillColor c :: rest => renderTextsAux c font size rest
  | CanvasOp.setFont f s :: rest => renderTextsAux fill f s rest
  | CanvasOp.drawString x y s :: rest =>
      ⟨s, x, y, fill, font, size, "left"⟩ :: renderTextsAux fill font size rest
  | CanvasOp.drawRightString x y s :: rest =>
      ⟨s, x, y, fill, font, size, "right"⟩ :: renderTextsAux fill font size rest
  | CanvasOp.drawCentredString x y s :: rest =>
      ⟨s, x, y, fill, font, size, "center"⟩ :: renderTextsAux fill font size rest
  | _ :: rest => renderTextsAux fill font size rest

/-- The texts painted by a canvas-call sequence, from the canvas defaults. -/
def renderTexts (ops : List CanvasOp) : List TextDraw :=
  renderTextsAux "black" "Helvetica" 12 ops

/-- Observable side effects of one `generate` call: a directory creation, or
the submission of a document (path, table data, first-page and later-page
decoration routines) to the rendering engine. -/
inductive Eff where
  | madeDirs (dir : String)
  | built (path : String) (data : List (List Cell)) (onFirst onLater : List CanvasOp)
  deriving DecidableEq, Repr

/-- The ambient OS and rendering engine as response oracles. Each operation
either succeeds with a value or raises; a raised exception is carried as its
`str(e)` message in `Except.error`. `today` is the formatted current date
read by the decoration routine. -/
structure Env where
  expanduser : String → Except String String
  existsPath : String → Except String Bool
  makedirs : String → Except String Unit
  build : String → List (List Cell) → Except String Unit
  today : String

/-- The fixed mobile download directory probed first. -/
def androidPath : String := "/storage/emulated/0/Download"

/-- POSIX `os.path.join` on two components, as the source uses it: an
absolute second component replaces the first, otherwise the components are
joined with a single separator. -/
def joinPath (a b : String) : String :=
  if b.data.head? = some '/' then b
  else if a.data = [] then b
  else if a.data.getLast? = some '/' then String.mk (a.data ++ b.data)
  else String.mk (a.data ++ '/' :: b.data)

/-- The path-resolution block of `generate` (the first `try`): probe the
mobile download directory; otherwise fall back to `~/Downloads`, creating it
when absent; join the chosen directory with the filename. Returns the
resolved path or the raised exception's message, together with the side
effects performed. -/
def resolveOutputPath (env : Env) (filename : String) :
    Except String String × List Eff :=
  match env.expanduser "~" with
  | Except.error e => (Except.error e, [])
  | Except.ok home =>
    match env.existsPath androidPath with
    | Except.error e => (Except.error e, [])
    | Except.ok true => (Except.ok (joinPath androidPath filename), [])
    | Except.ok false =>
      match env.existsPath (joinPath home "Downloads") with
      | Except.error e => (Except.error e, [])
      | Except.ok true => (Except.ok (joinPath (joinPath home "Downloads") filename), [])
      | Except.ok false =>
        match env.makedirs (joinPath home "Downloads") with
        | Except.error e => (Except.error e, [])
        | Except.ok _ =>
          (Except.ok (joinPath (joinPath home "Downloads") filename),
           [Eff.madeDirs (joinPath home "Downloads")])

/-- The synchronous `generate` entry point: resolve the output path (a failure
returns `(False, "Path Error: <cause>")` at once), build the table data, and
submit the document with `draw_background` as both the first-page and the
later-page decoration; a rendering failure returns `(False, str(e))`, success
returns `(True, "Saved to: <full_path>")`. The second component is the trace
of side effects performed. -/
def generate (env : Env) (subjects : List SubjectRecord) (total_avg : Rat)
    (classification : String) (filename : String) :
    (Bool × String) × List Eff :=
  match resolveOutputPath env filename with
  | (Except.error e, effs) => ((false, "Path Error: " ++ e), effs)
  | (Except.ok full_path, effs) =>
    let data := tableData subjects
    let decor := drawBackground total_avg classification env.today
    let effs2 := effs ++ [Eff.built full_path data decor decor]
    match env.build full_path data with
    | Except.error e => ((false, e), effs2)
    | Except.ok _ => ((true, "Saved to: " ++ full_path), effs2)

/-- One event in the worker thread spawned by `generate_async`. -/
inductive ThreadEvent where
  | ranGenerate (result : Bool × String)
  | calledBack (result : Bool × String)
  deriving DecidableEq, Repr

/-- The body of the worker thread (`task` in the source): run the synchronous
`generate`, then invoke the callback with its result when one was supplied. -/
def task (env : Env) (subjects : List SubjectRecord) (total_avg : Rat)
    (classification : String) (filename : String) (hasCallback : Bool) :
    List ThreadEvent :=
  ThreadEvent.ranGenerate (generate env subjects total_avg classification filename).1 ::
    (if hasCallback then
      [ThreadEvent.calledBack (generate env subjects total_avg classification filename).1]
     else [])

/-- `generate_async` spawns one daemon thread running `task`; its observable
behaviour is the event trace of that thread. -/
def generate_async (env : Env) (subjects : List SubjectRecord) (total_avg : Rat)
    (classification : String) (filename : String) (hasCallback : Bool) :
    List ThreadEvent :=
  task env subjects total_avg classification filename hasCallback

/-- The results delivered to the callback, in order, over a thread trace. -/
def callbackResults (trace : List ThreadEvent) : List (Bool × String) :=
  trace.filterMap fun e =>
    match e with
    | ThreadEvent.calledBack r => some r
    | _ => none

/-- `s` is one run of characters ending in a dot followed by exactly two
digits, with no other dot: the shape of fixed two-decimal formatting. -/
def twoDecimalShape (s : String) : Prop :=
  ∃ pre d1 d2, s.data = pre ++ ['.', d1, d2] ∧ '.' ∉ pre ∧
    d1.isDigit = true ∧ d2.isDigit = true

/-- A test environment: no mobile directory, `~/Downloads` absent but
creatable, rendering engine succeeds. -/
def envOk : Env :=
  ⟨fun _ => Except.ok "/home/u", fun _ => Except.ok false, fun _ => Except.ok (),
   fun _ _ => Except.ok (), "01 January, 2026"⟩

/-- A test environment whose home-directory lookup raises. -/
def envPathFail : Env :=
  ⟨fun _ => Except.error "home unavailable", fun _ => Except.ok false,
   fun _ => Except.ok (), fun _ _ => Except.ok (), "01 January, 2026"⟩

/-- A test environment whose rendering engine raises. -/
def envBuildFail : Env :=
  ⟨fun _ => Except.ok "/home/u", fun _ => Except.ok false, fun _ => Except.ok (),
   fun _ _ => Except.error "disk full", "01 January, 2026"⟩

/-- A test environment whose rendering engine raises with a message that
happens to begin with the path-error prefix. -/
def envBuildPathMsg : Env :=
  ⟨fun _ => Except.ok "/home/u", fun _ => Except.ok false, fun _ => Except.ok (),
   fun _ _ => Except.error "Path Error: fake", "01 January, 2026"⟩

/-- Every entry of `natDigitsAux` is a decimal digit. -/
theorem natDigitsAux_lt_ten : ∀ fuel n d, d ∈ natDigitsAux fuel n → d < 10 := by
  intro fuel
  induction fuel with
  | zero =>
    intro n d hd
    simp only [natDigitsAux, List.mem_singleton] at hd
    subst hd
    exact Nat.mod_lt _ (by norm_num)
  | succ fuel ih =>
    intro n d hd
    simp only [natDigitsAux] at hd
    split at hd
    · simp only [List.mem_singleton] at hd
      subst hd
      assumption
    · rcases List.mem_append.mp hd with h | h
      · exact ih _ _ h
      · simp only [List.mem_singleton] at h
        subst h
        exact Nat.mod_lt _ (by norm_num)

/-- Every entry of `natDigits` is a decimal digit. -/
theorem natDigits_lt_ten (n d : Nat) (h : d ∈ natDigits n) : d < 10 :=
  natDigitsAux_lt_ten n n d h

/-- `Nat.digitChar` sends a decimal digit to a digit character distinct from
the dot. -/
theorem digitChar_facts : ∀ d, d < 10 → (Nat.digitChar d).isDigit = true ∧
    Nat.digitChar d ≠ '.' := by decide

/-- `fix2Int` always has the two-decimal shape. -/
theorem fix2Int_twoDecimalShape (c : Int) : twoDecimalShape (fix2Int c) := by
  refine ⟨(if c < 0 then ['-'] else []) ++ (natDigits (c.natAbs / 100)).map Nat.digitChar,
    Nat.digitChar (c.natAbs / 10 % 10), Nat.digitChar (c.natAbs % 10), ?_, ?_, ?_, ?_⟩
  · show ((if c < 0 then ['-'] else []) ++ (natDigits (c.natAbs / 100)).map Nat.digitChar ++
      ['.', Nat.digitChar (c.natAbs / 10 % 10), Nat.digitChar (c.natAbs % 10)]) = _
    simp [List.append_assoc]
  · intro hmem
    rcases List.mem_append.mp hmem with h | h
    · split at h <;> simp_all
    · rcases List.mem_map.mp h with ⟨d, hd, hdc⟩
      exact (digitChar_facts d (natDigits_lt_ten _ _ hd)).2 hdc
  · exact (digitChar_facts _ (Nat.mod_lt _ (by norm_num))).1
  · exact (digitChar_facts _ (Nat.mod_lt _ (by norm_num))).1

/-- `fix2` always has the two-decimal shape. -/
theorem fix2_twoDecimalShape (q : Rat) : twoDecimalShape (fix2 q) :=
  fix2Int_twoDecimalShape _

/-- `intStr` never contains a decimal point. -/
theorem intStr_no_dot (i : Int) : '.' ∉ (intStr i).data := by
  intro hmem
  rcases List.mem_append.mp hmem with h | h
  · split at h <;> simp_all
  · rcases List.mem_map.mp h with ⟨d, hd, hdc⟩
    exact (digitChar_facts d (natDigits_lt_ten _ _ hd)).2 hdc

/-- Unrolling the subject loop: it appends the subject rows in input order and
totals the coefficients and weighted scores. -/
theorem buildRows_eq (subjects : List SubjectRecord) :
    buildRows subjects = (headerRow :: subjects.map subjectRow,
      (subjects.map SubjectRecord.coeff).sum,
      (subjects.map SubjectRecord.weighted_score).sum) := by
  have main : ∀ (rows : List (List Cell)) (c : Int) (w : Rat),
      subjects.foldl rowStep (rows, c, w) = (rows ++ subjects.map subjectRow,
        c + (subjects.map SubjectRecord.coeff).sum,
        w + (subjects.map SubjectRecord.weighted_score).sum) := by
    induction subjects with
    | nil => intro rows c w; simp
    | cons s rest ih =>
      intro rows c w
      simp only [List.foldl_cons, List.map_cons, List.sum_cons]
      rw [show rowStep (rows, c, w) s =
        (rows ++ [subjectRow s], c + s.coeff, w + s.weighted_score) from rfl, ih]
      simp [List.append_assoc, add_assoc]
  simpa [buildRows] using main [headerRow] 0 0

/-- The table handed to the engine, in closed form. -/
theorem tableData_eq (subjects : List SubjectRecord) :
    tableData subjects = (headerRow :: subjects.map subjectRow) ++
      [totalsRow ((subjects.map SubjectRecord.coeff).sum)
        ((subjects.map SubjectRecord.weighted_score).sum)] := by
  simp [tableData, buildRows_eq]

/-- A path-resolution failure performs no side effects: the failing result is
exactly the raised message with an empty effect trace. -/
theorem resolve_error_eq (env : Env) (filename e : String)
    (h : (resolveOutputPath env filename).1 = Except.error e) :
    resolveOutputPath env filename = (Except.error e, []) := by
  unfold resolveOutputPath at h ⊢
  cases h1 : env.expanduser "~" with
  | error e2 => simp [h1] at h ⊢; exact h
  | ok home =>
    cases h2 : env.existsPath androidPath with
    | error e2 => simp [h1, h2] at h ⊢; exact h
    | ok b =>
      cases b with
      | true => simp [h1, h2] at h
      | false =>
        cases h3 : env.existsPath (joinPath home "Downloads") with
        | error e2 => simp [h1, h2, h3] at h ⊢; exact h
        | ok b2 =>
          cases b2 with
          | true => simp [h1, h2, h3] at h
          | false =>
            cases h4 : env.makedirs (joinPath home "Downloads") with
            | error e2 => simp [h1, h2, h3, h4] at h ⊢; exact h
            | ok u => simp [h1, h2, h3, h4] at h

/-- Path resolution only ever creates directories: every effect it performs is
a `madeDirs`. -/
theorem resolve_effects_madeDirs (env : Env) (filename : String) :
    ∀ eff ∈ (resolveOutputPath env filename).2, ∃ d, eff = Eff.madeDirs d := by
  unfold resolveOutputPath
  cases h1 : env.expanduser "~" with
  | error e2 => simp [h1]
  | ok home =>
    cases h2 : env.existsPath androidPath with
    | error e2 => simp [h1, h2]
    | ok b =>
      cases b with
      | true => simp [h1, h2]
      | false =>
        cases h3 : env.existsPath (joinPath home "Downloads") with
        | error e2 => simp [h1, h2, h3]
        | ok b2 =>
          cases b2 with
          | true => simp [h1, h2, h3]
          | false =>
            cases h4 : env.makedirs (joinPath home "Downloads") with
            | error e2 => simp [h1, h2, h3, h4]
            | ok u => simp [h1, h2, h3, h4]


/-- Claim C1: for every input sequence, the totals row appended last to the
table shows the sum of all coefficients and the sum of all weighted scores,
accumulated in input order, with the weighted total in two-decimal format. -/
theorem totals_row_sums (subjects : List SubjectRecord) :
    (tableData subjects).getLast? = some [Cell.str "", Cell.str "TOTALS",
      Cell.str (intStr ((subjects.map SubjectRecord.coeff).sum)),
      Cell.str (fix2 ((subjects.map SubjectRecord.weighted_score).sum))] ∧
    twoDecimalShape (fix2 ((subjects.map SubjectRecord.weighted_score).sum)) := by
  constructor
  · rw [tableData_eq, List.getLast?_append_cons]
    simp [totalsRow]
  · exact fix2_twoDecimalShape _

/-- Claim C6: for an empty subject sequence the table is exactly the header
row and a totals row showing coefficient `0` and weighted total `0.00`. -/
theorem empty_subjects_table :
    tableData [] = [headerRow,
      [Cell.str "", Cell.str "TOTALS", Cell.str "0", Cell.str "0.00"]] := by
  have hfix : fix2 (0 : Rat) = "0.00" := by
    unfold fix2
    rw [show round ((0 : Rat) * 100) = 0 by norm_num]
    decide
  have hint : intStr (0 : Int) = "0" := by decide
  rw [tableData_eq]
  simp [totalsRow, hfix, hint]

/-- Claim C7: each subject row displays the bold name, the average and the
weighted score in fixed two-decimal format, and the coefficient as an
integer string with no decimal point. -/
theorem subject_row_formatting (sub : SubjectRecord) :
    subjectRow sub = [Cell.para ("<b>" ++ sub.name ++ "</b>") "Normal",
      Cell.str (fix2 sub.average), Cell.str (intStr sub.coeff),
      Cell.str (fix2 sub.weighted_score)] ∧
    twoDecimalShape (fix2 sub.average) ∧
    twoDecimalShape (fix2 sub.weighted_score) ∧
    '.' ∉ (intStr sub.coeff).data :=
  ⟨rfl, fix2_twoDecimalShape _, fix2_twoDecimalShape _, intStr_no_dot _⟩


/-- Claim C3: when path resolution raises, `generate` returns
`(False, "Path Error: <cause>")` at once, with an empty effect trace — no
rendering work and no write is performed. -/
theorem path_error_short_circuits (env : Env) (subjects : List SubjectRecord)
    (total_avg : Rat) (classification filename e : String)
    (h : (resolveOutputPath env filename).1 = Except.error e) :
    generate env subjects total_avg classification filename =
      ((false, "Path Error: " ++ e), []) := by
  rw [generate, resolve_error_eq env filename e h]

/-- Claim C3 witness: a concrete environment whose home lookup raises. -/
theorem path_error_short_circuits_witness :
    (resolveOutputPath envPathFail "r.pdf").1 = Except.error "home unavailable" ∧
    generate envPathFail [] 0 "good" "r.pdf" =
      ((false, "Path Error: " ++ "home unavailable"), []) :=
  ⟨rfl, path_error_short_circuits envPathFail [] 0 "good" "r.pdf" "home unavailable" rfl⟩

/-- Claim C2: `generate` is a total function into result pairs: every run
either fails path resolution and returns the prefixed message, or submits the
document and returns the engine's raised message on failure, or returns the
success message; and the callback of `generate_async` receives exactly the
returned result, so no fault escapes either boundary. -/
theorem generate_never_raises (env : Env) (subjects : List SubjectRecord)
    (total_avg : Rat) (classification filename : String) :
    ((∃ e, (resolveOutputPath env filename).1 = Except.error e ∧
        (generate env subjects total_avg classification filename).1 =
          (false, "Path Error: " ++ e)) ∨
      (∃ p e, (resolveOutputPath env filename).1 = Except.ok p ∧
        env.build p (tableData subjects) = Except.error e ∧
        (generate env subjects total_avg classification filename).1 = (false, e)) ∨
      (∃ p, (resolveOutputPath env filename).1 = Except.ok p ∧
        env.build p (tableData subjects) = Except.ok () ∧
        (generate env subjects total_avg classification filename).1 =
          (true, "Saved to: " ++ p))) ∧
    callbackResults (generate_async env subjects total_avg classification filename true) =
      [(generate env subjects total_avg classification filename).1] := by
  constructor
  · cases hres : resolveOutputPath env filename with
    | mk r effs =>
      cases r with
      | error e =>
        exact Or.inl ⟨e, rfl, by rw [generate, hres]⟩
      | ok p =>
        cases hb : env.build p (tableData subjects) with
        | error e =>
          refine Or.inr (Or.inl ⟨p, e, rfl, hb, ?_⟩)
          rw [generate, hres]
          simp [hb]
        | ok u =>
          cases u
          refine Or.inr (Or.inr ⟨p, rfl, hb, ?_⟩)
          rw [generate, hres]
          simp [hb]
  · simp [generate_async, task, callbackResults]

/-- Claim C4: path resolution picks the mobile directory when present, else
`~/Downloads`, creating the latter exactly when it is absent, and returns the
join of the chosen directory with the filename. -/
theorem resolve_path_selection (env : Env) (filename home : String) (aex dex : Bool)
    (hh : env.expanduser "~" = Except.ok home)
    (ha : env.existsPath androidPath = Except.ok aex)
    (hd : env.existsPath (joinPath home "Downloads") = Except.ok dex)
    (hm : env.makedirs (joinPath home "Downloads") = Except.ok ()) :
    resolveOutputPath env filename =
      (Except.ok (joinPath (if aex then androidPath else joinPath home "Downloads") filename),
       if aex || dex then [] else [Eff.madeDirs (joinPath home "Downloads")]) := by
  cases aex <;> cases dex <;> simp [resolveOutputPath, hh, ha, hd, hm]

/-- Claim C4 witness: with neither directory present, `~/Downloads` is
created and used. -/
theorem resolve_path_selection_witness :
    envOk.expanduser "~" = Except.ok "/home/u" ∧
    resolveOutputPath envOk "r.pdf" =
      (Except.ok (joinPath (if false then androidPath else joinPath "/home/u" "Downloads") "r.pdf"),
       if false || false then [] else [Eff.madeDirs (joinPath "/home/u" "Downloads")]) :=
  ⟨rfl, resolve_path_selection envOk "r.pdf" "/home/u" false false rfl rfl rfl rfl⟩

/-- Claim C5: the spawned task invokes the callback exactly once with the
result of the synchronous `generate` when a callback was supplied, and not at
all otherwise; a failing run reaches the callback as `(false, message)`. -/
theorem callback_exactly_once (env : Env) (subjects : List SubjectRecord)
    (total_avg : Rat) (classification filename : String) (hasCallback : Bool) :
    callbackResults (generate_async env subjects total_avg classification filename hasCallback) =
      (if hasCallback then
        [(generate env subjects total_avg classification filename).1] else []) ∧
    ((generate env subjects total_avg classification filename).1.1 = false →
      callbackResults (generate_async env subjects total_avg classification filename true) =
        [(false, (generate env subjects total_avg classification filename).1.2)]) := by
  constructor
  · cases hasCallback <;> simp [generate_async, task, callbackResults]
  · intro hf
    simp [generate_async, task, callbackResults, ← hf]

/-- Claim C5 witness: a failing rendering run delivers `(false, message)` to
the callback exactly once. -/
theorem callback_exactly_once_witness :
    (generate envBuildFail [] 0 "good" "r.pdf").1.1 = false ∧
    callbackResults (generate_async envBuildFail [] 0 "good" "r.pdf" true) =
      [(false, (generate envBuildFail [] 0 "good" "r.pdf").1.2)] :=
  ⟨rfl, (callback_exactly_once envBuildFail [] 0 "good" "r.pdf" true).2 rfl⟩

/-- Claim C8: when resolution and the engine both succeed, `generate` returns
`(True, "Saved to: " ++ full_path)`. -/
theorem success_message (env : Env) (subjects : List SubjectRecord)
    (total_avg : Rat) (classification filename p : String)
    (hr : (resolveOutputPath env filename).1 = Except.ok p)
    (hb : env.build p (tableData subjects) = Except.ok ()) :
    (generate env subjects total_avg classification filename).1 =
      (true, "Saved to: " ++ p) := by
  have hres : resolveOutputPath env filename =
      (Except.ok p, (resolveOutputPath env filename).2) := by
    rw [← hr]
  rw [generate, hres]
  simp [hb]

/-- Claim C8 witness: a fully successful run on a concrete environment. -/
theorem success_message_witness :
    (resolveOutputPath envOk "r.pdf").1 = Except.ok "/home/u/Downloads/r.pdf" ∧
    envOk.build "/home/u/Downloads/r.pdf" (tableData []) = Except.ok () ∧
    (generate envOk [] 0 "good" "r.pdf").1 =
      (true, "Saved to: " ++ "/home/u/Downloads/r.pdf") :=
  ⟨rfl, rfl, success_message envOk [] 0 "good" "r.pdf" "/home/u/Downloads/r.pdf" rfl rfl⟩


/-- Claim C9: the page-decoration routine paints the circular badge's
`total_avg` in two-decimal format over `/ 20` (both in white inside the
badge), and beneath the badge the upper-cased classification in the
secondary brand colour; and every document is submitted with this same
routine as both the first-page and the later-page decoration. -/
theorem page_decoration_badge (env : Env) (subjects : List SubjectRecord)
    (total_avg : Rat) (classification filename : String) :
    (⟨fix2 total_avg, pageW / 2, pageH - 160 + 6, "white", "Helvetica-Bold", 26, "center"⟩ :
        TextDraw) ∈ renderTexts (drawBackground total_avg classification env.today) ∧
    (⟨"/ 20", pageW / 2, pageH - 160 - 15, "white", "Helvetica", 10, "center"⟩ :
        TextDraw) ∈ renderTexts (drawBackground total_avg classification env.today) ∧
    (⟨"PERFORMANCE: " ++ strUpper classification, pageW / 2, pageH - 160 - 85, C_SECONDARY,
        "Helvetica-Bold", 14, "center"⟩ : TextDraw)
      ∈ renderTexts (drawBackground total_avg classification env.today) ∧
    ((generate env subjects total_avg classification filename).2.all fun eff =>
      match eff with
      | Eff.madeDirs _ => true
      | Eff.built _ _ onFirst onLater =>
          decide (onFirst = drawBackground total_avg classification env.today) &&
          decide (onLater = drawBackground total_avg classification env.today)) = true := by
  refine ⟨?_, ?_, ?_, ?_⟩
  · simp [renderTexts, renderTextsAux, drawBackground]
  · simp [renderTexts, renderTextsAux, drawBackground]
  · simp [renderTexts, renderTextsAux, drawBackground]
  · rw [List.all_eq_true]
    intro eff hmem
    cases hres : resolveOutputPath env filename with
    | mk r effs =>
      have heffs : ∀ x ∈ effs, ∃ d, x = Eff.madeDirs d := by
        have := resolve_effects_madeDirs env filename
        rw [hres] at this
        exact this
      cases r with
      | error e =>
        rw [generate, hres] at hmem
        rcases heffs eff hmem with ⟨d, hd⟩
        subst hd
        rfl
      | ok p =>
        rw [generate, hres] at hmem
        cases hb : env.build p (tableData subjects) with
        | error e =>
          simp only [hb] at hmem
          rcases List.mem_append.mp hmem with h | h
          · rcases heffs eff h with ⟨d, hd⟩
            subst hd
            rfl
          · simp only [List.mem_singleton] at h
            subst h
            simp
        | ok u =>
          simp only [hb] at hmem
          rcases List.mem_append.mp hmem with h | h
          · rcases heffs eff h with ⟨d, hd⟩
            subst hd
            rfl
          · simp only [List.mem_singleton] at h
            subst h
            simp

/-- Claim C10 counterexample: a rendering-stage failure whose exception
message itself begins with `"Path Error: "`; path resolution succeeded, yet
the returned message carries the prefix, so prefix inspection cannot
distinguish the two error classes. -/
theorem render_error_prefix_collision :
    (resolveOutputPath envBuildPathMsg "r.pdf").1 = Except.ok "/home/u/Downloads/r.pdf" ∧
    (generate envBuildPathMsg [] 0 "good" "r.pdf").1 =
      (false, "Path Error: " ++ "fake") := by
  exact ⟨rfl, rfl⟩

/-- Claim C10 amended: a path-resolution failure returns exactly
`"Path Error: " ++ cause`, and a rendering-stage failure returns exactly the
exception's message with no prefix added; the two classes are distinguishable
by the prefix only when rendering messages do not themselves start with it. -/
theorem error_message_prefixes (env : Env) (subjects : List SubjectRecord)
    (total_avg : Rat) (classification filename : String) :
    (∀ e, (resolveOutputPath env filename).1 = Except.error e →
      (generate env subjects total_avg classification filename).1 =
        (false, "Path Error: " ++ e)) ∧
    (∀ p e, (resolveOutputPath env filename).1 = Except.ok p →
      env.build p (tableData subjects) = Except.error e →
      (generate env subjects total_avg classification filename).1 = (false, e)) := by
  constructor
  · intro e h
    rw [path_error_short_circuits env subjects total_avg classification filename e h]
  · intro p e hr hb
    have hres : resolveOutputPath env filename =
        (Except.ok p, (resolveOutputPath env filename).2) := by
      rw [← hr]
    rw [generate, hres]
    simp [hb]

/-- Claim C10 amended witness: both error classes on concrete environments. -/
theorem error_message_prefixes_witness :
    (generate envPathFail [] 0 "good" "r.pdf").1 =
      (false, "Path Error: " ++ "home unavailable") ∧
    (generate envBuildFail [] 0 "good" "r.pdf").1 = (false, "disk full") :=
  ⟨(error_message_prefixes envPathFail [] 0 "good" "r.pdf").1 "home unavailable" rfl,
   (error_message_prefixes envBuildFail [] 0 "good" "r.pdf").2
     "/home/u/Downloads/r.pdf" "disk full" rfl rfl⟩

end PdfService
